import Mathlib

/-!
# Verification of `examples/nlp/ner.py`

A shallow embedding of the NER fine-tuning example script. The script is
straight-line configuration glue: it parses command-line arguments, checks
that the training file exists, constructs external-framework objects
(tokenizer, BERT encoder, data layers, loss, callbacks), selects a
learning-rate schedule and invokes the framework's training driver.

The embedding models the script as a function from the parsed arguments and
an environment (file system, availability of `tensorboardX`, the tokenizer's
vocabulary size, the training-set size) to the ordered trace of externally
observable actions it performs, paired with the error it raises, if any.
External framework objects are opaque: an event records the constructor
call and the arguments the script passes to it. Python floats are modelled
as exact rationals; Python's `int()` and `math.ceil` as truncation/ceiling
on ℚ.
-/

/-- Python's `int()` applied to an exact rational value: truncation toward
zero (`int(q)` floors nonnegative values and ceils negative ones). -/
def pyInt (q : ℚ) : Int := if 0 ≤ q then ⌊q⌋ else ⌈q⌉

/-- Python's `math.ceil` on an exact rational value. -/
def pyCeil (q : ℚ) : Int := ⌈q⌉

/-- Model of `os.path.join a b` for a relative second component `b`. -/
def os_path_join (a b : String) : String :=
  if a = "" then b
  else if a.endsWith "/" then a ++ b
  else a ++ "/" ++ b

/-- Placement values of the external `nemo.core.DeviceType` enum (opaque to
the script; only the members the script can select, plus `CPU`, which the
enum offers but the script never picks). -/
inductive DeviceType
  | CPU
  | GPU
  | AllGpu
deriving DecidableEq, Repr

/-- The external `nemo.core.Optimization` levels the script can select. -/
inductive Optimization
  | mxprO0
  | mxprO1
deriving DecidableEq, Repr

/-- Which tokenizer the script constructs, with the constructor arguments:
either `NemoBertTokenizer(pretrained_model)`, or
`SentencePieceTokenizer(model_path=...)` followed by
`add_special_tokens(...)`. -/
inductive TokenizerChoice
  | nemoBert (pretrained_model : String)
  | sentencePiece (model_path : String) (special_tokens : List String)
deriving DecidableEq, Repr

/-- How the BERT encoder module is obtained: from a pretrained model name,
or from a config file followed by `restore_from(checkpoint)`. -/
inductive EncoderSource
  | pretrained (pretrained_model_name : String)
  | fromConfig (config_filename : Option String) (checkpoint : String)
deriving DecidableEq, Repr

/-- The learning-rate schedule object the script constructs, with the
arguments passed to its constructor. -/
inductive LrPolicy
  | WarmupAnnealing (total_steps : Int) (warmup_ratio : ℚ)
  | SquareAnnealing (total_steps : Int)
  | CosineAnnealing (total_steps : Int)
deriving DecidableEq, Repr

/-- The constructor argument `total_steps` of a schedule. -/
def LrPolicy.total_steps : LrPolicy → Int
  | .WarmupAnnealing t _ => t
  | .SquareAnnealing t => t
  | .CosineAnnealing t => t

/-- The errors the script itself raises. -/
inductive ScriptError
  | fileNotFoundError (msg : String)
  | valueError (msg : String)
deriving DecidableEq, Repr

/-- The configuration the script passes to `neural_factory.train`. -/
structure TrainConfig where
  lr_policy : LrPolicy
  optimizer : String
  num_epochs : Nat
  lr : ℚ
deriving DecidableEq, Repr

/-- One externally observable action of the script, in program order.
Construction events record the arguments passed to the external
constructor; `importTensorboard b` records the `try: import tensorboardX`
statement, with `b = true` iff a `ModuleNotFoundError` was raised there and
caught (and `tb_writer` set to `None`). -/
inductive Event
  | parseArgs
  | checkDataFile (path : String)
  | importTensorboard (caught_module_not_found : Bool)
  | constructFactory (placement : DeviceType) (opt_level : Optimization)
      (local_rank : Option Int)
  | constructTokenizer (t : TokenizerChoice)
  | constructEncoder (src : EncoderSource)
  | computeVocabSize (padded : Int)
  | constructTrainDataLayer (path : String) (max_seq_length : Nat)
      (batch_size : Nat)
  | constructLoss (dropout : ℚ)
  | connectTrain
  | constructEvalDataLayer (path : String) (max_seq_length : Nat)
      (batch_size : Nat)
  | connectEval
  | registerTrainCallback (tb : Bool)
  | registerEvalCallback (tb : Bool) (eval_step : Int)
  | selectLrPolicy (p : LrPolicy)
  | invokeTrain (cfg : TrainConfig)
deriving DecidableEq, Repr

/-- The command-line arguments of `ner.py`, with the types `argparse`
assigns them (flags with `default=None` are `Option`-valued; float-typed
flags are modelled as ℚ). -/
structure Args where
  local_rank : Option Int
  batch_size : Nat
  num_gpus : Nat
  num_epochs : Nat
  lr_warmup_proportion : ℚ
  lr : ℚ
  weight_decay : ℚ
  optimizer_kind : String
  mixed_precision : Bool
  lr_policy : String
  pretrained_bert_model : String
  data_dir : String
  classification_dropout : ℚ
  max_seq_length : Nat
  output_filename : String
  tensorboard_filename : String
  bert_checkpoint : Option String
  bert_config : Option String
deriving DecidableEq, Repr

/-- The `argparse` defaults of `ner.py`. -/
def defaultArgs : Args where
  local_rank := none
  batch_size := 32
  num_gpus := 1
  num_epochs := 1
  lr_warmup_proportion := 1 / 10
  lr := 5 / 100000
  weight_decay := 0
  optimizer_kind := "adam"
  mixed_precision := false
  lr_policy := "lr_warmup"
  pretrained_bert_model := "bert-base-cased"
  data_dir := "./conll2003"
  classification_dropout := 1 / 10
  max_seq_length := 128
  output_filename := "output.txt"
  tensorboard_filename := "ner_tensorboard"
  bert_checkpoint := none
  bert_config := none

/-- The environment the script runs in: which files exist, whether the
`tensorboardX` module can be imported, the tokenizer's vocabulary size
(`tokenizer.vocab_size`) and the training-set size
(`len(train_data_layer)`). -/
structure Env where
  fileExists : String → Bool
  tensorboardAvailable : Bool
  tokenizer_vocab_size : Nat
  train_data_size : Nat

/-- The message of the `FileNotFoundError` raised for a missing training
file (ner.py lines 43-46); it tells the user where to obtain the dataset
and where to put it. -/
def conll_not_found_msg : String :=
  "CoNLL-2003 dataset not found. Dataset can be "
    ++ "obtained at https://github.com/kyzhouhzau/BERT"
    ++ "-NER/tree/master/data and should be put in a "
    ++ "folder at the same level as ner.py."

/-- The message of the `ValueError` raised for an unrecognized
`--lr_policy` (ner.py line 178). -/
def invalid_lr_policy_msg : String :=
  "Invalid lr_policy, must be lr_warmup or lr_poly"

/-- `data_file = os.path.join(args.data_dir, "train.txt")` (line 41). -/
def data_file (args : Args) : String := os_path_join args.data_dir "train.txt"

/-- Lines 55-58: `device` is `AllGpu` iff `args.local_rank is not None`,
else `GPU`. -/
def device (args : Args) : DeviceType :=
  if args.local_rank.isSome then DeviceType.AllGpu else DeviceType.GPU

/-- Lines 60-63: optimization level selected from `--mixed_precision`. -/
def optimization_level (args : Args) : Optimization :=
  if args.mixed_precision then Optimization.mxprO1 else Optimization.mxprO0

/-- Lines 72-80: the tokenizer. With no `--bert_checkpoint`,
`NemoBertTokenizer(args.pretrained_bert_model)`; otherwise a
`SentencePieceTokenizer` from the hard-coded path `"tokenizer.model"` with
the three special tokens added. -/
def tokenizer (args : Args) : TokenizerChoice :=
  if args.bert_checkpoint.isSome then
    TokenizerChoice.sentencePiece "tokenizer.model" ["[MASK]", "[CLS]", "[SEP]"]
  else
    TokenizerChoice.nemoBert args.pretrained_bert_model

/-- Lines 75-85: the BERT encoder. With no `--bert_checkpoint`, built from
the pretrained model name; otherwise from `--bert_config` and restored
from the checkpoint. -/
def bert_model (args : Args) : EncoderSource :=
  match args.bert_checkpoint with
  | none => EncoderSource.pretrained args.pretrained_bert_model
  | some ckpt => EncoderSource.fromConfig args.bert_config ckpt

/-- Line 87: `vocab_size = 8 * math.ceil(tokenizer.vocab_size / 8)`. -/
def vocab_size (tokenizer_vocab_size : Nat) : Int :=
  8 * pyCeil ((tokenizer_vocab_size : ℚ) / 8)

/-- Line 157:
`steps_per_epoch = int(train_data_size / (args.batch_size * args.num_gpus))`
(true division of Python ints, then truncation by `int()`). -/
def steps_per_epoch (train_data_size batch_size num_gpus : Nat) : Int :=
  pyInt ((train_data_size : ℚ) / ((batch_size * num_gpus : Nat) : ℚ))

/-- Lines 170-178: the three-way conditional on `args.lr_policy` selecting
the schedule, given the already-computed `steps_per_epoch`; any other
string raises a `ValueError`. -/
def lr_policy_func (args : Args) (steps : Int) : Except ScriptError LrPolicy :=
  if args.lr_policy = "lr_warmup" then
    Except.ok (LrPolicy.WarmupAnnealing ((args.num_epochs : Int) * steps)
      args.lr_warmup_proportion)
  else if args.lr_policy = "lr_poly" then
    Except.ok (LrPolicy.SquareAnnealing ((args.num_epochs : Int) * steps))
  else if args.lr_policy = "lr_cosine" then
    Except.ok (LrPolicy.CosineAnnealing ((args.num_epochs : Int) * steps))
  else
    Except.error (ScriptError.valueError invalid_lr_policy_msg)

/-- The whole script (ner.py lines 17-188) after argument parsing: the
trace of observable actions it performs, in program order, and the error it
raises, if any. The trace follows the source line by line: file check
(41-46), tensorboard import (48-53), factory (55-70), tokenizer and encoder
(72-85), vocab padding (87), training data layer, loss and training-tensor
wiring (91-121), eval data layer and eval wiring (125-147), the two
callbacks (150-168) with `steps_per_epoch` computed between them (156-157),
schedule selection (170-178), and the `train` call (180-188). -/
def runScript (args : Args) (env : Env) : List Event × Option ScriptError :=
  if !(env.fileExists (data_file args)) then
    ([Event.parseArgs, Event.checkDataFile (data_file args)],
      some (ScriptError.fileNotFoundError conll_not_found_msg))
  else
    let tb_writer := env.tensorboardAvailable
    let steps := steps_per_epoch env.train_data_size args.batch_size args.num_gpus
    let built : List Event :=
      [Event.parseArgs,
       Event.checkDataFile (data_file args),
       Event.importTensorboard (!env.tensorboardAvailable),
       Event.constructFactory (device args) (optimization_level args) args.local_rank,
       Event.constructTokenizer (tokenizer args),
       Event.constructEncoder (bert_model args),
       Event.computeVocabSize (vocab_size env.tokenizer_vocab_size),
       Event.constructTrainDataLayer (os_path_join args.data_dir "train.txt")
         args.max_seq_length args.batch_size,
       Event.constructLoss args.classification_dropout,
       Event.connectTrain,
       Event.constructEvalDataLayer (os_path_join args.data_dir "dev.txt")
         args.max_seq_length args.batch_size,
       Event.connectEval,
       Event.registerTrainCallback tb_writer,
       Event.registerEvalCallback tb_writer steps]
    match lr_policy_func args steps with
    | Except.error e => (built, some e)
    | Except.ok p =>
        (built ++ [Event.selectLrPolicy p,
          Event.invokeTrain ⟨p, args.optimizer_kind, args.num_epochs, args.lr⟩],
         none)

/-- An event that constructs an external tokenizer, encoder, data-layer or
loss module. -/
def isModuleConstruction : Event → Bool
  | Event.constructTokenizer _ => true
  | Event.constructEncoder _ => true
  | Event.constructTrainDataLayer _ _ _ => true
  | Event.constructEvalDataLayer _ _ _ => true
  | Event.constructLoss _ => true
  | _ => false

/-- The event recording the `vocab_size` computation of line 87. -/
def isVocabCompute : Event → Bool
  | Event.computeVocabSize _ => true
  | _ => false

/-- The event recording the `neural_factory.train` invocation. -/
def isInvokeTrain : Event → Bool
  | Event.invokeTrain _ => true
  | _ => false

/-- The stage number that the spec's eight-stage enumeration (§2) assigns
to an event: 1 parse, 2 validate dataset, 3 tokenizer/encoder, 4 data
pipelines and loss, 5 tensor wiring, 6 callbacks, 7 schedule selection,
8 training driver; events outside the enumeration get `none`. -/
def stageOf : Event → Option Nat
  | Event.parseArgs => some 1
  | Event.checkDataFile _ => some 2
  | Event.constructTokenizer _ => some 3
  | Event.constructEncoder _ => some 3
  | Event.constructTrainDataLayer _ _ _ => some 4
  | Event.constructLoss _ => some 4
  | Event.constructEvalDataLayer _ _ _ => some 4
  | Event.connectTrain => some 5
  | Event.connectEval => some 5
  | Event.registerTrainCallback _ => some 6
  | Event.registerEvalCallback _ _ => some 6
  | Event.selectLrPolicy _ => some 7
  | Event.invokeTrain _ => some 8
  | _ => none

/-- The sequence of spec-enumeration stage numbers along a trace. -/
def stage_sequence (l : List Event) : List Nat := l.filterMap stageOf

/-- The stage number of an event in the order the script actually follows:
the training pipeline is built, wired and only then is the evaluation
pipeline built and wired. -/
def stageOfActual : Event → Option Nat
  | Event.parseArgs => some 1
  | Event.checkDataFile _ => some 2
  | Event.constructTokenizer _ => some 3
  | Event.constructEncoder _ => some 3
  | Event.constructTrainDataLayer _ _ _ => some 4
  | Event.constructLoss _ => some 4
  | Event.connectTrain => some 5
  | Event.constructEvalDataLayer _ _ _ => some 6
  | Event.connectEval => some 7
  | Event.registerTrainCallback _ => some 8
  | Event.registerEvalCallback _ _ => some 8
  | Event.selectLrPolicy _ => some 9
  | Event.invokeTrain _ => some 10
  | _ => none

/-- The sequence of actual-order stage numbers along a trace. -/
def stage_sequence_actual (l : List Event) : List Nat :=
  l.filterMap stageOfActual

/-- The schedule object passed to `selectLrPolicy` in a run's trace, if
any. -/
def selected_lr_policy (args : Args) (env : Env) : Option LrPolicy :=
  ((runScript args env).1.filterMap (fun ev =>
    match ev with
    | Event.selectLrPolicy p => some p
    | _ => none)).head?

/-- An environment in which no file exists. -/
def envNoFile : Env where
  fileExists := fun _ => false
  tensorboardAvailable := true
  tokenizer_vocab_size := 28996
  train_data_size := 14041

/-- An environment in which every file exists, `tensorboardX` imports
fine, the tokenizer has 28996 entries and the training set 64 examples. -/
def envOk : Env where
  fileExists := fun _ => true
  tensorboardAvailable := true
  tokenizer_vocab_size := 28996
  train_data_size := 64

/-- Like `envOk` but the `tensorboardX` module is not installed. -/
def envNoTB : Env where
  fileExists := fun _ => true
  tensorboardAvailable := false
  tokenizer_vocab_size := 28996
  train_data_size := 64

/-- Default arguments with `--lr_policy lr_poly`. -/
def argsPoly : Args := { defaultArgs with lr_policy := "lr_poly" }

/-- Default arguments with `--lr_policy lr_cosine`. -/
def argsCosine : Args := { defaultArgs with lr_policy := "lr_cosine" }

/-- Default arguments with a misspelled `--lr_policy`. -/
def argsBad : Args := { defaultArgs with lr_policy := "warmup" }

/-- Default arguments with `--bert_checkpoint` and `--bert_config`
supplied. -/
def argsCkpt : Args :=
  { defaultArgs with
      bert_checkpoint := some "bert.pt"
      bert_config := some "bert_config.json" }

/-- Default arguments with `--local_rank 0` supplied. -/
def argsRank : Args := { defaultArgs with local_rank := some 0 }

theorem pyInt_natCast_div (n d : Nat) :
    pyInt ((n : ℚ) / ((d : Nat) : ℚ)) = ((n / d : Nat) : Int) := by
  unfold pyInt
  rw [if_pos (by positivity)]
  rw [Rat.floor_natCast_div_natCast]
  exact_mod_cast rfl

theorem steps_per_epoch_eq (n b g : Nat) :
    steps_per_epoch n b g = ((n / (b * g) : Nat) : Int) := by
  unfold steps_per_epoch
  exact pyInt_natCast_div n (b * g)

theorem pyCeil_natCast_div_eight (v : Nat) :
    pyCeil ((v : ℚ) / 8) = (((v + 7) / 8 : Nat) : Int) := by
  unfold pyCeil
  have h1 : (⌊-((v : ℚ) / 8)⌋ : Int) = -⌈(v : ℚ) / 8⌉ := Int.floor_neg
  have h2 : -((v : ℚ) / 8) = ((-(v : Int) : Int) : ℚ) / ((8 : Nat) : ℚ) := by
    push_cast
    ring
  rw [h2, Rat.floor_intCast_div_natCast] at h1
  omega

theorem vocab_size_eq (v : Nat) :
    vocab_size v = ((8 * ((v + 7) / 8) : Nat) : Int) := by
  unfold vocab_size
  rw [pyCeil_natCast_div_eight]
  push_cast
  ring

/-- C1: if `<data_dir>/train.txt` does not exist, the script raises a
`FileNotFoundError` carrying the remediation message, and no tokenizer,
encoder, data-layer or loss module is constructed beforehand, for every
combination of the other command-line arguments. -/
theorem missing_train_file_errors_before_any_construction
    (args : Args) (env : Env)
    (h : env.fileExists (data_file args) = false) :
    (runScript args env).2 =
        some (ScriptError.fileNotFoundError conll_not_found_msg) ∧
      ∀ ev ∈ (runScript args env).1, isModuleConstruction ev = false := by
  refine ⟨by simp [runScript, h], ?_⟩
  intro ev hev
  simp [runScript, h] at hev
  rcases hev with h1 | h1 <;> simp [h1, isModuleConstruction]

/-- Witness for C1: the default arguments in an environment with no files. -/
theorem missing_train_file_errors_before_any_construction_witness :
    envNoFile.fileExists (data_file defaultArgs) = false ∧
    ((runScript defaultArgs envNoFile).2 =
        some (ScriptError.fileNotFoundError conll_not_found_msg) ∧
      ∀ ev ∈ (runScript defaultArgs envNoFile).1,
        isModuleConstruction ev = false) :=
  ⟨rfl, missing_train_file_errors_before_any_construction defaultArgs
    envNoFile rfl⟩

/-- C2: when the training file exists, the run raises a `ValueError`
exactly when `--lr_policy` is outside `{lr_warmup, lr_poly, lr_cosine}`,
and raises nothing at all when it is inside the set. -/
theorem invalid_lr_policy_raises_value_error (args : Args) (env : Env)
    (h : env.fileExists (data_file args) = true) :
    (runScript args env).2 =
      if args.lr_policy = "lr_warmup" ∨ args.lr_policy = "lr_poly" ∨
          args.lr_policy = "lr_cosine" then none
      else some (ScriptError.valueError invalid_lr_policy_msg) := by
  by_cases h1 : args.lr_policy = "lr_warmup" <;>
    by_cases h2 : args.lr_policy = "lr_poly" <;>
    by_cases h3 : args.lr_policy = "lr_cosine" <;>
    simp [runScript, h, lr_policy_func, h1, h2, h3]

/-- Witness for C2: `--lr_policy warmup` (misspelled) raises the
`ValueError`; the default `lr_warmup` raises nothing. -/
theorem invalid_lr_policy_raises_value_error_witness :
    envOk.fileExists (data_file argsBad) = true ∧
    (runScript argsBad envOk).2 =
      some (ScriptError.valueError invalid_lr_policy_msg) ∧
    (runScript defaultArgs envOk).2 = none := by
  refine ⟨rfl, ?_, ?_⟩
  · have h := invalid_lr_policy_raises_value_error argsBad envOk rfl
    simpa [argsBad, defaultArgs] using h
  · have h := invalid_lr_policy_raises_value_error defaultArgs envOk rfl
    simpa [defaultArgs] using h

/-- C3: for every training-set size `n`, `batch_size b > 0` and
`num_gpus g > 0`, `steps_per_epoch` (Python `int()` of the true division)
equals the floor division `n / (b * g)`. -/
theorem steps_per_epoch_is_floor_division (n b g : Nat)
    (hb : 0 < b) (hg : 0 < g) :
    steps_per_epoch n b g = ((n / (b * g) : Nat) : Int) := by
  clear hb hg
  exact steps_per_epoch_eq n b g

/-- Witness for C3: the CoNLL-2003 training-set size with the default
batch size and GPU count. -/
theorem steps_per_epoch_is_floor_division_witness :
    0 < 32 ∧ 0 < 1 ∧
    steps_per_epoch 14041 32 1 = ((14041 / (32 * 1) : Nat) : Int) :=
  ⟨by decide, by decide,
    steps_per_epoch_is_floor_division 14041 32 1 (by decide) (by decide)⟩

/-- C4: the padded vocabulary size is `8 * ceil(v / 8)`: a multiple of 8,
at least `v`, and less than `v + 8`. -/
theorem vocab_size_rounds_up_to_multiple_of_eight (v : Nat) :
    vocab_size v = 8 * pyCeil ((v : ℚ) / 8) ∧
    (8 : Int) ∣ vocab_size v ∧
    (v : Int) ≤ vocab_size v ∧
    vocab_size v - (v : Int) < 8 := by
  refine ⟨rfl, ?_, ?_, ?_⟩ <;> rw [vocab_size_eq] <;> omega

/-- C5 counterexample: the claim that no exception other than the two
explicit checks is caught or suppressed is false: with `tensorboardX` not
installed, the script catches the `ModuleNotFoundError` raised by
`import tensorboardX` (lines 48-53) and finishes the run without raising
anything. -/
theorem tensorboard_import_error_is_caught_and_suppressed :
    Event.importTensorboard true ∈ (runScript defaultArgs envNoTB).1 ∧
    (runScript defaultArgs envNoTB).2 = none := by
  constructor <;>
    simp [runScript, envNoTB, data_file, lr_policy_func, defaultArgs]

/-- C5 amended: the script itself raises only the two explicit errors
(missing training file, invalid `--lr_policy`), and the only exception it
catches and suppresses is the `ModuleNotFoundError` of the `tensorboardX`
import, which it catches exactly when the module is unavailable (and the
run reaches the import). -/
theorem script_raises_only_two_errors_catches_only_tensorboard
    (args : Args) (env : Env) :
    ((runScript args env).2 = none ∨
      (runScript args env).2 =
        some (ScriptError.fileNotFoundError conll_not_found_msg) ∨
      (runScript args env).2 =
        some (ScriptError.valueError invalid_lr_policy_msg)) ∧
    (Event.importTensorboard true ∈ (runScript args env).1 ↔
      env.fileExists (data_file args) = true ∧
        env.tensorboardAvailable = false) := by
  by_cases hf : env.fileExists (data_file args) <;>
    by_cases h1 : args.lr_policy = "lr_warmup" <;>
    by_cases h2 : args.lr_policy = "lr_poly" <;>
    by_cases h3 : args.lr_policy = "lr_cosine" <;>
    simp [runScript, hf, lr_policy_func, h1, h2, h3]

/-- C6: the three-way mapping on `--lr_policy`: `lr_warmup` selects
`WarmupAnnealing` with `warmup_ratio = --lr_warmup_proportion`, `lr_poly`
selects `SquareAnnealing`, `lr_cosine` selects `CosineAnnealing`; every
selected schedule's `total_steps` is `num_epochs * steps_per_epoch`. -/
theorem lr_policy_three_way_mapping (args : Args) (env : Env)
    (h : env.fileExists (data_file args) = true) :
    (args.lr_policy = "lr_warmup" →
      selected_lr_policy args env = some (LrPolicy.WarmupAnnealing
        ((args.num_epochs : Int) *
          steps_per_epoch env.train_data_size args.batch_size args.num_gpus)
        args.lr_warmup_proportion)) ∧
    (args.lr_policy = "lr_poly" →
      selected_lr_policy args env = some (LrPolicy.SquareAnnealing
        ((args.num_epochs : Int) *
          steps_per_epoch env.train_data_size args.batch_size
            args.num_gpus))) ∧
    (args.lr_policy = "lr_cosine" →
      selected_lr_policy args env = some (LrPolicy.CosineAnnealing
        ((args.num_epochs : Int) *
          steps_per_epoch env.train_data_size args.batch_size
            args.num_gpus))) ∧
    (∀ p, selected_lr_policy args env = some p →
      p.total_steps = (args.num_epochs : Int) *
        steps_per_epoch env.train_data_size args.batch_size args.num_gpus) := by
  refine ⟨?_, ?_, ?_, ?_⟩
  · intro hp
    simp [selected_lr_policy, runScript, h, lr_policy_func, hp]
  · intro hp
    by_cases h1 : args.lr_policy = "lr_warmup"
    · rw [hp] at h1
      exact absurd h1 (by decide)
    · simp [selected_lr_policy, runScript, h, lr_policy_func, h1, hp]
  · intro hp
    by_cases h1 : args.lr_policy = "lr_warmup"
    · rw [hp] at h1
      exact absurd h1 (by decide)
    · by_cases h2 : args.lr_policy = "lr_poly"
      · rw [hp] at h2
        exact absurd h2 (by decide)
      · simp [selected_lr_policy, runScript, h, lr_policy_func, h1, h2, hp]
  · intro p hp
    by_cases h1 : args.lr_policy = "lr_warmup" <;>
      by_cases h2 : args.lr_policy = "lr_poly" <;>
      by_cases h3 : args.lr_policy = "lr_cosine" <;>
      simp [selected_lr_policy, runScript, h, lr_policy_func, h1, h2, h3]
        at hp <;>
      simp [← hp, LrPolicy.total_steps]

/-- Witness for C6: defaults (`lr_warmup`, one epoch, 64 training examples,
batch size 32, one GPU) give `WarmupAnnealing` over `1 * 2` steps with the
default warmup ratio. -/
theorem lr_policy_three_way_mapping_witness :
    selected_lr_policy defaultArgs envOk =
      some (LrPolicy.WarmupAnnealing 2 (1 / 10)) := by
  have h := (lr_policy_three_way_mapping defaultArgs envOk rfl).1 rfl
  rw [h]
  norm_num [steps_per_epoch_eq, defaultArgs, envOk]

/-- C7 counterexample: the spec's eight-stage order is violated on a
successful run: the stage numbers along the trace are not monotone, because
the training tensors are wired (stage 5, trace index 9) before the
evaluation data pipeline is built (stage 4, trace index 10). -/
theorem spec_stage_order_fails_on_successful_run :
    (runScript defaultArgs envOk).2 = none ∧
    ¬ List.Chain' (· ≤ ·) (stage_sequence (runScript defaultArgs envOk).1) ∧
    (runScript defaultArgs envOk).1[9]? = some Event.connectTrain ∧
    (runScript defaultArgs envOk).1[10]? =
      some (Event.constructEvalDataLayer (os_path_join "./conll2003" "dev.txt")
        128 32) := by
  refine ⟨?_, ?_, ?_, ?_⟩ <;>
    simp [runScript, envOk, data_file, lr_policy_func, defaultArgs,
      stage_sequence, stageOf]

/-- C7 amended: on every successful run the script performs its stages in
this order: parse, validate dataset, tokenizer and encoder, training data
pipeline plus loss, wire the training tensors, evaluation data pipeline,
wire the evaluation tensors, callbacks, schedule selection, and the
training driver, which is invoked exactly once and last. -/
theorem script_stage_order_actual (args : Args) (env : Env)
    (hfile : env.fileExists (data_file args) = true)
    (hpol : args.lr_policy = "lr_warmup" ∨ args.lr_policy = "lr_poly" ∨
      args.lr_policy = "lr_cosine") :
    (runScript args env).2 = none ∧
    List.Chain' (· ≤ ·)
      (stage_sequence_actual (runScript args env).1) ∧
    (runScript args env).1.countP isInvokeTrain = 1 ∧
    ((runScript args env).1.getLast?).map isInvokeTrain = some true := by
  rcases hpol with hp | hp | hp <;>
    simp [runScript, hfile, lr_policy_func, hp, stage_sequence_actual,
      stageOfActual, isInvokeTrain, List.countP_cons, List.getLast?_cons_cons]

/-- Witness for C7 amended: the default arguments in `envOk`. -/
theorem script_stage_order_actual_witness :
    (runScript defaultArgs envOk).2 = none ∧
    List.Chain' (· ≤ ·)
      (stage_sequence_actual (runScript defaultArgs envOk).1) ∧
    (runScript defaultArgs envOk).1.countP isInvokeTrain = 1 ∧
    ((runScript defaultArgs envOk).1.getLast?).map isInvokeTrain =
      some true :=
  script_stage_order_actual defaultArgs envOk rfl (Or.inl rfl)

/-- C8: the padded vocabulary size is dead code: erasing its computation
from the trace leaves a trace, and an outcome, that do not depend on the
tokenizer's vocabulary size at all, so no later expression or constructed
module reads it. -/
theorem vocab_size_is_dead_code (args : Args) (env : Env) (v : Nat) :
    ((runScript args { env with tokenizer_vocab_size := v }).1.filter
        (fun ev => !(isVocabCompute ev)) =
      (runScript args env).1.filter (fun ev => !(isVocabCompute ev))) ∧
    (runScript args { env with tokenizer_vocab_size := v }).2 =
      (runScript args env).2 := by
  by_cases hf : env.fileExists (data_file args) <;>
    by_cases h1 : args.lr_policy = "lr_warmup" <;>
    by_cases h2 : args.lr_policy = "lr_poly" <;>
    by_cases h3 : args.lr_policy = "lr_cosine" <;>
    simp [runScript, hf, lr_policy_func, h1, h2, h3, isVocabCompute]

/-- C9: factory placement is `AllGpu` exactly when `--local_rank` was
supplied and `GPU` otherwise; `CPU` is never selected; and the factory is
constructed with this placement on every run that passes the file check. -/
theorem device_placement_from_local_rank_never_cpu (args : Args) (env : Env)
    (h : env.fileExists (data_file args) = true) :
    device args =
      (if args.local_rank.isSome then DeviceType.AllGpu
       else DeviceType.GPU) ∧
    device args ≠ DeviceType.CPU ∧
    Event.constructFactory (device args) (optimization_level args)
      args.local_rank ∈ (runScript args env).1 := by
  refine ⟨rfl, ?_, ?_⟩
  · unfold device
    split <;> simp
  · by_cases h1 : args.lr_policy = "lr_warmup" <;>
      by_cases h2 : args.lr_policy = "lr_poly" <;>
      by_cases h3 : args.lr_policy = "lr_cosine" <;>
      simp [runScript, h, lr_policy_func, h1, h2, h3]

/-- Witness for C9: `--local_rank 0` in `envOk`. -/
theorem device_placement_from_local_rank_never_cpu_witness :
    device argsRank =
      (if argsRank.local_rank.isSome then DeviceType.AllGpu
       else DeviceType.GPU) ∧
    device argsRank ≠ DeviceType.CPU ∧
    Event.constructFactory (device argsRank) (optimization_level argsRank)
      argsRank.local_rank ∈ (runScript argsRank envOk).1 :=
  device_placement_from_local_rank_never_cpu argsRank envOk rfl

/-- C10: with `--bert_checkpoint` supplied, the tokenizer is a
`SentencePieceTokenizer` from the hard-coded `"tokenizer.model"` with
special tokens `[MASK]`, `[CLS]`, `[SEP]`, and the encoder is built from
`--bert_config` and restored from the checkpoint (the pretrained name is
not used); with it absent, `NemoBertTokenizer(--pretrained_bert_model)` and
the pretrained model are used. -/
theorem bert_checkpoint_selects_tokenizer_and_encoder (args : Args) :
    (args.bert_checkpoint = none →
      tokenizer args = TokenizerChoice.nemoBert args.pretrained_bert_model ∧
      bert_model args = EncoderSource.pretrained args.pretrained_bert_model) ∧
    (∀ ckpt, args.bert_checkpoint = some ckpt →
      tokenizer args = TokenizerChoice.sentencePiece "tokenizer.model"
        ["[MASK]", "[CLS]", "[SEP]"] ∧
      bert_model args = EncoderSource.fromConfig args.bert_config ckpt) := by
  constructor
  · intro h
    simp [tokenizer, bert_model, h]
  · intro ckpt h
    simp [tokenizer, bert_model, h]

/-- Witness for C10: the default arguments (no checkpoint) and
`argsCkpt` (checkpoint and config supplied). -/
theorem bert_checkpoint_selects_tokenizer_and_encoder_witness :
    (tokenizer defaultArgs = TokenizerChoice.nemoBert "bert-base-cased" ∧
      bert_model defaultArgs = EncoderSource.pretrained "bert-base-cased") ∧
    (tokenizer argsCkpt = TokenizerChoice.sentencePiece "tokenizer.model"
        ["[MASK]", "[CLS]", "[SEP]"] ∧
      bert_model argsCkpt =
        EncoderSource.fromConfig (some "bert_config.json") "bert.pt") := by
  constructor
  · have h := (bert_checkpoint_selects_tokenizer_and_encoder defaultArgs).1 rfl
    simpa [defaultArgs] using h
  · have h :=
      (bert_checkpoint_selects_tokenizer_and_encoder argsCkpt).2 "bert.pt" rfl
    simpa [argsCkpt, defaultArgs] using h
